import Mathlib

/-!
Verification of the `ls_client` driver of the spyder repository
(`spyder/utils/code_analysis/ls_client/main.py`) against its
natural-language specification.

The driver is straight-line code with one loop, so it is embedded as a
trace semantics: every statement of `__main__` and of `SignalManager`
contributes an observable event, and a run of the driver is determined by
where (if anywhere) a termination signal or another exception arrives.
-/

namespace Spyder

/-- The three signals handled by `SignalManager`: `signal.SIGINT`,
`signal.SIGTERM`, and (on Windows only) `signal.SIGBREAK`. -/
inductive Sig where
  | sigint
  | sigterm
  | sigbreak
deriving DecidableEq

/-- Numeric value of each signal (`signal.SIGINT = 2`, `signal.SIGTERM = 15`,
`signal.SIGBREAK = 21` on Windows), as logged by `exit_gracefully`. -/
def sigValue : Sig → Nat
  | .sigint => 2
  | .sigterm => 15
  | .sigbreak => 21

/-- A signal disposition, as stored and installed via `signal.getsignal` /
`signal.signal`: either the bound method `SignalManager.exit_gracefully`, the
OS default action, the ignore action, or some other Python-level handler
(distinguished by an abstract identifier). -/
inductive Handler where
  | exitGracefully
  | dfl
  | ign
  | custom (id : Nat)
deriving DecidableEq

/-- Exceptions relevant to the driver: the `TerminateSignal` exception class
defined in `main.py` (raised by `exit_gracefully`), and any other exception
escaping `client.listen()`. -/
inductive Exc where
  | terminateSignal
  | otherError
deriving DecidableEq

/-- Target of a `psutil` process operation: the bridge's own process
(`psutil.Process()` with no pid argument denotes the calling process) or the
spawned language-server child (owned by the unseen `producer` module). -/
inductive ProcTarget where
  | selfProc
  | childProc
deriving DecidableEq

/-- Observable events of the driver.  Each constructor corresponds to one
call made by `main.py`.  The constructors `setShutdownFlag` and
`checkShutdownFlag` are vocabulary for the shutdown-state flag writes/reads
that the specification attributes to the program; they are part of the event
alphabet so that the spec's claims can be stated, and the translated source
emits them nowhere, because `main.py` contains no shutdown flag. -/
inductive Event where
  | procHandle (t : ProcTarget)
  | getsignal (s : Sig)
  | setsignal (s : Sig) (h : Handler)
  | logTermination (signum : Nat)
  | setShutdownFlag
  | checkShutdownFlag
  | clientConstruct
  | clientStart
  | clientListen
  | clientStop
  | procTerminate (t : ProcTarget)
  | procWait (t : ProcTarget)
deriving DecidableEq

/-- The events a single execution of `SignalManager.exit_gracefully` performs,
together with the exception it raises (lines 82-85 of `main.py`: one
`LOGGER.info` call, then `raise TerminateSignal`). -/
structure HandlerRun where
  events : List Event
  raises : Option Exc
deriving DecidableEq

/-- `SignalManager.exit_gracefully(signum, frame)`: logs the captured signal
number and raises `TerminateSignal`; it touches nothing else. -/
def exit_gracefully (n : Nat) : HandlerRun :=
  ⟨[Event.logTermination n], some Exc.terminateSignal⟩

/-- The saved original dispositions recorded by `SignalManager.__init__`
(attributes `original_sigint`, `original_sigterm`, and on Windows
`original_sigbreak`). -/
structure SignalManager where
  original_sigint : Handler
  original_sigterm : Handler
  original_sigbreak : Option Handler
deriving DecidableEq

/-- Point update of a disposition table `Sig → Handler`, the effect of one
`signal.signal(s, h)` call. -/
def setSig (s : Sig) (h : Handler) (d : Sig → Handler) : Sig → Handler :=
  fun t => if t = s then h else d t

/-- `SignalManager.__init__` as a state transformer on the process's signal
disposition table: records the current handlers for SIGINT and SIGTERM (and
SIGBREAK when `w` says the platform is Windows), then installs
`exit_gracefully` for each.  Returns the constructed manager and the updated
disposition table. -/
def SignalManager.init (w : Bool) (d : Sig → Handler) :
    SignalManager × (Sig → Handler) :=
  let m : SignalManager :=
    ⟨d Sig.sigint, d Sig.sigterm, if w then some (d Sig.sigbreak) else none⟩
  let d1 := setSig Sig.sigint Handler.exitGracefully d
  let d2 := setSig Sig.sigterm Handler.exitGracefully d1
  let d3 := if w then setSig Sig.sigbreak Handler.exitGracefully d2 else d2
  (m, d3)

/-- `SignalManager.restore`: reinstalls the saved original dispositions for
SIGINT and SIGTERM, and for SIGBREAK on Windows (where `original_sigbreak`
was recorded at construction). -/
def SignalManager.restore (w : Bool) (m : SignalManager)
    (d : Sig → Handler) : Sig → Handler :=
  let d1 := setSig Sig.sigint m.original_sigint d
  let d2 := setSig Sig.sigterm m.original_sigterm d1
  if w then
    match m.original_sigbreak with
    | some h => setSig Sig.sigbreak h d2
    | none => d2
  else d2

/-- Events emitted by `SignalManager.__init__` in source order: two
`signal.getsignal` reads, two `signal.signal` installs, then the SIGBREAK
pair on Windows. -/
def installEvents (w : Bool) : List Event :=
  [Event.getsignal Sig.sigint, Event.getsignal Sig.sigterm,
   Event.setsignal Sig.sigint Handler.exitGracefully,
   Event.setsignal Sig.sigterm Handler.exitGracefully]
  ++ (if w then
        [Event.getsignal Sig.sigbreak,
         Event.setsignal Sig.sigbreak Handler.exitGracefully]
      else [])

/-- Events emitted by `SignalManager.restore` when the manager was built over
original dispositions `d`: reinstalls `d`'s handlers for SIGINT and SIGTERM,
and for SIGBREAK on Windows. -/
def restoreEvents (w : Bool) (d : Sig → Handler) : List Event :=
  [Event.setsignal Sig.sigint (d Sig.sigint),
   Event.setsignal Sig.sigterm (d Sig.sigterm)]
  ++ (if w then [Event.setsignal Sig.sigbreak (d Sig.sigbreak)] else [])

/-- The first statement of `__main__`: `process = psutil.Process()`, which
denotes the calling process itself (psutil's documented behavior when no pid
is given). -/
def processVar : ProcTarget := ProcTarget.selfProc

/-- How a run of the driver ends.  `exited c` is the Python interpreter
finishing the script normally with exit status `c`; `killedBySignal s` is
death by an unhandled fatal signal (for SIGTERM under the default
disposition, and for `psutil`'s `TerminateProcess` on Windows);
`uncaught e` is an exception propagating out of `__main__` (the interpreter
then exits nonzero after a traceback); `hangs` is `process.wait()` on the
bridge's own still-running process, which never returns;
`customHandlerRan` abstracts a run whose final self-delivered SIGTERM was
handled by an unknown original handler. -/
inductive Outcome where
  | exited (code : Nat)
  | killedBySignal (s : Sig)
  | uncaught (e : Exc)
  | hangs
  | customHandlerRan
deriving DecidableEq

/-- Where the external disturbance hits the driver, which determines the
whole run: a monitored signal during `LanguageServerClient(...)`
construction, during `client.start()`, or during the `(k+1)`-st
`client.listen()` call (optionally followed by a second signal delivered
after the `except` block but before `client.stop()`); or some non-
`TerminateSignal` exception raised by the `(k+1)`-st `client.listen()`. -/
inductive RunPlan where
  | sigDuringConstruct (s : Sig)
  | sigDuringStart (s : Sig)
  | sigDuringListen (s : Sig) (k : Nat) (second : Option Sig)
  | otherDuringListen (k : Nat)
deriving DecidableEq

/-- A completed (or crashed) run of `__main__`: the list of events performed,
and how the process ended. -/
structure RunResult where
  trace : List Event
  outcome : Outcome
deriving DecidableEq

/-- A delivered signal actually triggers `exit_gracefully` only if it is one
of the monitored signals: SIGINT or SIGTERM always, SIGBREAK only on
Windows. -/
def monitored (w : Bool) : Sig → Bool
  | Sig.sigbreak => w
  | _ => true

/-- Tail of a clean shutdown after `sig_manager.restore()`:
`process.terminate()` sends SIGTERM to the bridge's own process (on Windows,
`TerminateProcess` kills it outright).  Since the original dispositions were
just restored, what happens is decided by the original SIGTERM disposition
`d .sigterm`: under the default action the process dies and `process.wait()`
is never reached; under ignore, `wait()` is reached and waits forever for
the bridge's own still-alive pid; under an unknown handler the behavior is
unspecified; if the original disposition was itself `exit_gracefully`, the
handler raises `TerminateSignal` outside any `try`. -/
def cleanTail (w : Bool) (d : Sig → Handler) : List Event × Outcome :=
  if w then ([Event.procTerminate processVar], Outcome.killedBySignal Sig.sigterm)
  else
    match d Sig.sigterm with
    | Handler.dfl =>
        ([Event.procTerminate processVar], Outcome.killedBySignal Sig.sigterm)
    | Handler.ign =>
        ([Event.procTerminate processVar, Event.procWait processVar],
         Outcome.hangs)
    | Handler.custom _ =>
        ([Event.procTerminate processVar], Outcome.customHandlerRan)
    | Handler.exitGracefully =>
        ([Event.procTerminate processVar]
           ++ (exit_gracefully (sigValue Sig.sigterm)).events,
         Outcome.uncaught Exc.terminateSignal)

/-- Events of `__main__` up to and including `client.start()`:
`psutil.Process()`, `SignalManager()`, `LanguageServerClient(...)`,
`client.start()`. -/
def startedPrefix (w : Bool) : List Event :=
  [Event.procHandle processVar] ++ installEvents w
    ++ [Event.clientConstruct, Event.clientStart]

/-- The driver `__main__` as a function of platform flag `w` (the source's
`WINDOWS`), the pre-existing signal dispositions `d`, and the run plan.

Faithful to lines 94-113 of `main.py`:
`process = psutil.Process(); sig_manager = SignalManager();
client = LanguageServerClient(...); client.start();
try: while True: client.listen()
except TerminateSignal: pass
client.stop(); sig_manager.restore(); process.terminate(); process.wait()`.

A signal during construction or `client.start()` runs `exit_gracefully`,
whose `TerminateSignal` is raised outside the `try` and escapes `__main__`.
A signal during the `(k+1)`-st `listen` is caught by the `except` around the
loop, after which teardown runs; a second signal delivered before
`client.stop()` raises `TerminateSignal` again, now outside the `try`.  A
non-`TerminateSignal` exception from `listen` matches no `except` clause and
escapes with no teardown. -/
def run (w : Bool) (d : Sig → Handler) : RunPlan → RunResult
  | RunPlan.sigDuringConstruct s =>
      ⟨[Event.procHandle processVar] ++ installEvents w
         ++ (exit_gracefully (sigValue s)).events,
       Outcome.uncaught Exc.terminateSignal⟩
  | RunPlan.sigDuringStart s =>
      ⟨[Event.procHandle processVar] ++ installEvents w
         ++ [Event.clientConstruct] ++ (exit_gracefully (sigValue s)).events,
       Outcome.uncaught Exc.terminateSignal⟩
  | RunPlan.sigDuringListen s k second =>
      let pre := startedPrefix w ++ List.replicate k Event.clientListen
                   ++ (exit_gracefully (sigValue s)).events
      match second with
      | some s2 =>
          ⟨pre ++ (exit_gracefully (sigValue s2)).events,
           Outcome.uncaught Exc.terminateSignal⟩
      | none =>
          ⟨pre ++ [Event.clientStop] ++ restoreEvents w d ++ (cleanTail w d).1,
           (cleanTail w d).2⟩
  | RunPlan.otherDuringListen k =>
      ⟨startedPrefix w ++ List.replicate k Event.clientListen,
       Outcome.uncaught Exc.otherError⟩

/-- An event is a teardown action in the sense of the specification: stopping
the client (router/endpoints), reinstalling a signal disposition, or a
terminate/wait process operation. -/
def isTeardownEvent : Event → Bool
  | Event.clientStop => true
  | Event.setsignal _ _ => true
  | Event.procTerminate _ => true
  | Event.procWait _ => true
  | _ => false

/-- An event is a `signal.signal` call. -/
def isSetsig : Event → Bool
  | Event.setsignal _ _ => true
  | _ => false

/-- The `signal.signal` calls made by `SignalManager.__init__`, i.e. the
installs of `exit_gracefully`. -/
def installSetsigs (w : Bool) : List Event :=
  [Event.setsignal Sig.sigint Handler.exitGracefully,
   Event.setsignal Sig.sigterm Handler.exitGracefully]
  ++ (if w then [Event.setsignal Sig.sigbreak Handler.exitGracefully] else [])

/-- Original-disposition table in which every signal has the OS default
action; used as a concrete environment in counterexamples and witnesses. -/
def allDfl : Sig → Handler := fun _ => Handler.dfl

/-- An option value as held in the parsed namespace: argparse keeps a
default of whatever Python type it was declared with (`7000` and `2087` are
ints), while values supplied on the command line arrive as strings. -/
inductive Val where
  | i (n : Nat)
  | s (str : String)
deriving DecidableEq

/-- The parsed argument namespace of `main.py`'s parser: the five
value-taking options and the two flags declared in lines 21-42. -/
structure Args where
  zmq_port : Val
  server_host : Val
  server_port : Val
  folder : Val
  server : Val
  external_server : Bool
  debug : Bool
deriving DecidableEq

/-- The defaults declared for each option: `--zmq-port` 7000,
`--server-host` `'127.0.0.1'`, `--server-port` 2087, `--folder`
`getcwd()` (the current working directory, passed in as `cwd`),
`--server` `'pyls'`, and both `store_true` flags false. -/
def defaultArgs (cwd : String) : Args :=
  ⟨Val.i 7000, Val.s "127.0.0.1", Val.i 2087, Val.s cwd, Val.s "pyls",
   false, false⟩

/-- Whether a token is one of the five declared value-taking options. -/
def knownValueOption (t : String) : Bool :=
  t = "--zmq-port" || t = "--server-host" || t = "--server-port"
    || t = "--folder" || t = "--server"

/-- Whether a token is one of the two declared `store_true` flags. -/
def knownFlagOption (t : String) : Bool :=
  t = "--external-server" || t = "--debug"

/-- Store a command-line-supplied value (always a string) into the field of
the named value-taking option. -/
def setOption (a : Args) (t v : String) : Args :=
  if t = "--zmq-port" then { a with zmq_port := Val.s v }
  else if t = "--server-host" then { a with server_host := Val.s v }
  else if t = "--server-port" then { a with server_port := Val.s v }
  else if t = "--folder" then { a with folder := Val.s v }
  else { a with server := Val.s v }

/-- Set the named `store_true` flag. -/
def setFlag (a : Args) (t : String) : Args :=
  if t = "--external-server" then { a with external_server := true }
  else { a with debug := true }

/-- Whether a token looks like a long option (starts with the two characters
`--`), in which case argparse refuses to consume it as the value of a
preceding value-taking option. -/
def looksLikeOption (v : String) : Bool :=
  match v.data with
  | '-' :: '-' :: _ => true
  | _ => false

/-- One pass of `ArgumentParser.parse_known_args` over the remaining tokens,
accumulating into namespace `a`: a declared value option consumes the next
token as its value (argparse rejects the invocation — `none` here — when the
value is missing or is itself another `--` option); a declared flag sets its
field; any other token is left unmatched, in order, for the returned extras
list.  Models the space-separated `--opt value` spelling used by the
callers; `--opt=value` spellings and unambiguous prefix abbreviations of
argparse are outside this model. -/
def parseKnownFrom (a : Args) : List String → Option (Args × List String)
  | [] => some (a, [])
  | t :: rest =>
    if knownValueOption t then
      match rest with
      | [] => none
      | v :: rest2 =>
        if looksLikeOption v then none
        else parseKnownFrom (setOption a t v) rest2
    else if knownFlagOption t then
      parseKnownFrom (setFlag a t) rest
    else
      (parseKnownFrom a rest).map (fun p => (p.1, t :: p.2))

/-- `args, unknownargs = parser.parse_known_args()` (line 44): parse the
argument vector starting from the declared defaults. -/
def parse_known_args (cwd : String) (argv : List String) :
    Option (Args × List String) :=
  parseKnownFrom (defaultArgs cwd) argv

/-- The keyword arguments with which `__main__` constructs
`LanguageServerClient` (lines 97-103). -/
structure ClientConfig where
  host : Val
  port : Val
  workspace : Val
  zmq_port : Val
  use_external_server : Bool
  server : Val
  server_args : List String
deriving DecidableEq

/-- The `LanguageServerClient(...)` construction of lines 97-103: each
keyword argument drawn from the parsed namespace, and `server_args` bound to
the unrecognized-extras list verbatim. -/
def mkClient (p : Args × List String) : ClientConfig :=
  ⟨p.1.server_host, p.1.server_port, p.1.folder, p.1.zmq_port,
   p.1.external_server, p.1.server, p.2⟩

/-- Whether an event is a completed `client.listen()` call. -/
def isListen : Event → Bool
  | Event.clientListen => true
  | _ => false

/-- Number of completed `client.listen()` calls in a trace. -/
def countListens (t : List Event) : Nat := (t.filter isListen).length

theorem cleanTail_mem (w : Bool) (d : Sig → Handler) (e : Event)
    (he : e ∈ (cleanTail w d).1) :
    e = Event.procTerminate ProcTarget.selfProc
      ∨ e = Event.procWait ProcTarget.selfProc
      ∨ e = Event.logTermination 15 := by
  cases w with
  | true =>
    simp [cleanTail, processVar] at he
    exact Or.inl he
  | false =>
    cases hd : d Sig.sigterm <;>
      simp [cleanTail, hd, processVar, exit_gracefully, sigValue] at he <;>
      tauto

theorem cleanTail_head (w : Bool) (d : Sig → Handler) :
    ((cleanTail w d).1).head? = some (Event.procTerminate ProcTarget.selfProc) := by
  cases w with
  | true => rfl
  | false => cases hd : d Sig.sigterm <;> simp [cleanTail, hd, processVar]

theorem filter_setsig_installEvents (w : Bool) :
    (installEvents w).filter isSetsig = installSetsigs w := by
  cases w <;> rfl

theorem filter_setsig_startedPrefix (w : Bool) :
    (startedPrefix w).filter isSetsig = installSetsigs w := by
  cases w <;> rfl

theorem filter_setsig_replicate (k : Nat) :
    (List.replicate k Event.clientListen).filter isSetsig = [] := by
  induction k with
  | zero => rfl
  | succ n ih => simp [List.replicate, List.filter, isSetsig, ih]

theorem countListens_append (a b : List Event) :
    countListens (a ++ b) = countListens a + countListens b := by
  simp [countListens, List.filter_append]

theorem countListens_replicate (k : Nat) :
    countListens (List.replicate k Event.clientListen) = k := by
  induction k with
  | zero => rfl
  | succ n ih => simp [countListens, List.replicate, List.filter, isListen] at ih ⊢

theorem countListens_cleanTail (w : Bool) (d : Sig → Handler) :
    countListens ((cleanTail w d).1) = 0 := by
  cases w with
  | true => rfl
  | false => cases hd : d Sig.sigterm <;> simp [cleanTail, hd, processVar, countListens,
      List.filter, isListen, exit_gracefully, sigValue]

theorem countListens_restoreEvents (w : Bool) (d : Sig → Handler) :
    countListens (restoreEvents w d) = 0 := by
  cases w <;> rfl

theorem countListens_startedPrefix (w : Bool) :
    countListens (startedPrefix w) = 0 := by
  cases w <;> rfl

theorem countListens_exit (n : Nat) :
    countListens (exit_gracefully n).events = 0 := rfl

theorem countListens_stop : countListens [Event.clientStop] = 0 := rfl

/-- Claim C7: constructing the `SignalManager` records the previously
installed disposition of every monitored signal and installs
`exit_gracefully` for each; `restore()` reinstalls exactly the recorded
originals, so for every prior disposition table, construction followed by
`restore()` leaves the dispositions equal to what they were before
construction, on Windows (`w = true`, covering SIGBREAK) as well as on
POSIX. -/
theorem C7_install_restore_roundtrip (w : Bool) (d : Sig → Handler) :
    SignalManager.restore w (SignalManager.init w d).1 (SignalManager.init w d).2 = d := by
  funext s
  cases w <;> cases s <;>
    simp [SignalManager.init, SignalManager.restore, setSig]

/-- Claim C1, counterexample: on receiving a monitored signal (SIGTERM,
number 15), `exit_gracefully` does not set any shutdown flag and does not
return normally — it raises the `TerminateSignal` exception, contradicting
the claim that the handler merely sets the Shutdown State to
shutdown-requested with teardown deferred to a loop iteration check. -/
theorem C1_counterexample :
    (exit_gracefully 15).raises = some Exc.terminateSignal
    ∧ Event.setShutdownFlag ∉ (exit_gracefully 15).events := by
  decide

/-- Claim C1, amended: the handler performs no teardown or blocking work
inside itself — its only actions are one log line and raising
`TerminateSignal`; it sets no shutdown flag, and teardown instead runs in
the straight-line code after the exception has unwound the main loop. -/
theorem C1_handler_only_logs_and_raises (n : Nat) :
    (exit_gracefully n).events = [Event.logTermination n]
    ∧ (exit_gracefully n).raises = some Exc.terminateSignal
    ∧ (exit_gracefully n).events.filter isTeardownEvent = []
    ∧ Event.setShutdownFlag ∉ (exit_gracefully n).events := by
  refine ⟨rfl, rfl, rfl, ?_⟩
  simp [exit_gracefully]

/-- Claim C2, counterexample: in a run where SIGTERM arrives during the
third `listen` call, the loop completed two full iterations and the trace
contains no shutdown-flag read or write at all — the claimed per-iteration
flag check does not exist in the code. -/
theorem C2_counterexample :
    countListens (run false allDfl (RunPlan.sigDuringListen Sig.sigterm 2 none)).trace = 2
    ∧ Event.checkShutdownFlag ∉
        (run false allDfl (RunPlan.sigDuringListen Sig.sigterm 2 none)).trace
    ∧ Event.setShutdownFlag ∉
        (run false allDfl (RunPlan.sigDuringListen Sig.sigterm 2 none)).trace := by
  decide

/-- Claim C2, amended: the program maintains no shutdown-state flag — no run
ever reads or writes one; the main loop is the unconditional
`while True: client.listen()`, completing exactly `k` iterations when the
signal arrives during iteration `k + 1`, and it is exited only by the
`TerminateSignal` exception propagating out of `listen`. -/
theorem C2_no_flag_loop_unconditional (w : Bool) (d : Sig → Handler)
    (pl : RunPlan) (s : Sig) (k : Nat) :
    Event.checkShutdownFlag ∉ (run w d pl).trace
    ∧ Event.setShutdownFlag ∉ (run w d pl).trace
    ∧ countListens (run w d (RunPlan.sigDuringListen s k none)).trace = k := by
  refine ⟨?_, ?_, ?_⟩
  case _ =>
    cases pl with
    | sigDuringConstruct s1 =>
      cases w <;> simp [run, installEvents, exit_gracefully, processVar]
    | sigDuringStart s1 =>
      cases w <;> simp [run, installEvents, exit_gracefully, processVar]
    | sigDuringListen s1 k1 second =>
      cases second with
      | none =>
        intro hm
        simp [run, startedPrefix, installEvents, exit_gracefully, processVar,
          restoreEvents, List.mem_append, List.mem_replicate] at hm
        rcases cleanTail_mem w d _ hm with h | h | h <;> cases h
      | some s2 =>
        cases w <;> simp [run, startedPrefix, installEvents, exit_gracefully,
          processVar, List.mem_append, List.mem_replicate]
    | otherDuringListen k1 =>
      cases w <;> simp [run, startedPrefix, installEvents,
        List.mem_append, List.mem_replicate]
  case _ =>
    cases pl with
    | sigDuringConstruct s1 =>
      cases w <;> simp [run, installEvents, exit_gracefully, processVar]
    | sigDuringStart s1 =>
      cases w <;> simp [run, installEvents, exit_gracefully, processVar]
    | sigDuringListen s1 k1 second =>
      cases second with
      | none =>
        intro hm
        simp [run, startedPrefix, installEvents, exit_gracefully, processVar,
          restoreEvents, List.mem_append, List.mem_replicate] at hm
        rcases cleanTail_mem w d _ hm with h | h | h <;> cases h
      | some s2 =>
        cases w <;> simp [run, startedPrefix, installEvents, exit_gracefully,
          processVar, List.mem_append, List.mem_replicate]
    | otherDuringListen k1 =>
      cases w <;> simp [run, startedPrefix, installEvents,
        List.mem_append, List.mem_replicate]
  case _ =>
    show countListens (startedPrefix w ++ List.replicate k Event.clientListen
      ++ (exit_gracefully (sigValue s)).events ++ [Event.clientStop]
      ++ restoreEvents w d ++ (cleanTail w d).1) = k
    simp only [countListens_append, countListens_replicate, countListens_startedPrefix,
      countListens_restoreEvents, countListens_cleanTail, countListens_exit,
      countListens_stop]
    omega

/-- Claim C3, counterexample: in a concrete clean-shutdown run (SIGTERM
during the first `listen`, default original dispositions, POSIX), the last
teardown action of the trace is `process.terminate()` on the bridge's own
process — handler restoration is not the last step — and the driver never
terminates or reaps the child process at all. -/
theorem C3_counterexample :
    (run false allDfl (RunPlan.sigDuringListen Sig.sigterm 0 none)).trace.getLast?
        = some (Event.procTerminate ProcTarget.selfProc)
    ∧ Event.procTerminate ProcTarget.childProc ∉
        (run false allDfl (RunPlan.sigDuringListen Sig.sigterm 0 none)).trace
    ∧ Event.procWait ProcTarget.childProc ∉
        (run false allDfl (RunPlan.sigDuringListen Sig.sigterm 0 none)).trace := by
  decide

/-- Claim C3, amended: every run reaching shutdown performs its teardown in
the fixed order `client.stop()` (which owns router, endpoints and child
teardown), then restoration of the original signal handlers, then
`terminate()` (and, when terminate does not kill the process, `wait()`) on
the bridge's OWN process — handler restoration precedes the final
terminate/wait instead of being the last step. -/
theorem C3_teardown_order (w : Bool) (d : Sig → Handler) (s : Sig) (k : Nat)
    (h : monitored w s = true) :
    ∃ pre, (run w d (RunPlan.sigDuringListen s k none)).trace
        = pre ++ [Event.clientStop] ++ restoreEvents w d ++ (cleanTail w d).1
      ∧ Event.clientStop ∉ pre
      ∧ Event.procTerminate ProcTarget.selfProc ∉ pre
      ∧ Event.procWait ProcTarget.selfProc ∉ pre
      ∧ ((cleanTail w d).1).head? = some (Event.procTerminate ProcTarget.selfProc) := by
  refine ⟨startedPrefix w ++ List.replicate k Event.clientListen
    ++ (exit_gracefully (sigValue s)).events, ?_, ?_, ?_, ?_, cleanTail_head w d⟩
  · simp [run, List.append_assoc]
  · cases w <;> simp [startedPrefix, installEvents, exit_gracefully, processVar,
      List.mem_append, List.mem_replicate]
  · cases w <;> simp [startedPrefix, installEvents, exit_gracefully, processVar,
      List.mem_append, List.mem_replicate]
  · cases w <;> simp [startedPrefix, installEvents, exit_gracefully, processVar,
      List.mem_append, List.mem_replicate]

/-- Claim C3 witness: the amended teardown-order theorem instantiated at a
concrete clean-shutdown run. -/
theorem C3_teardown_order_witness :
    monitored false Sig.sigterm = true
    ∧ ∃ pre, (run false allDfl (RunPlan.sigDuringListen Sig.sigterm 1 none)).trace
        = pre ++ [Event.clientStop] ++ restoreEvents false allDfl
            ++ (cleanTail false allDfl).1
      ∧ Event.clientStop ∉ pre
      ∧ Event.procTerminate ProcTarget.selfProc ∉ pre
      ∧ Event.procWait ProcTarget.selfProc ∉ pre
      ∧ ((cleanTail false allDfl).1).head?
          = some (Event.procTerminate ProcTarget.selfProc) :=
  ⟨by decide, C3_teardown_order false allDfl Sig.sigterm 1 (by decide)⟩

/-- Claim C4, counterexample: a clean signal-triggered shutdown (SIGTERM
during the first `listen`, default original dispositions, POSIX) ends with
the bridge killed by the SIGTERM it sends to its own process after restoring
the default handlers — not with exit code 0. -/
theorem C4_counterexample :
    (run false allDfl (RunPlan.sigDuringListen Sig.sigterm 0 none)).outcome
        = Outcome.killedBySignal Sig.sigterm
    ∧ (run false allDfl (RunPlan.sigDuringListen Sig.sigterm 0 none)).outcome
        ≠ Outcome.exited 0 := by
  decide

/-- Claim C4, amended: a signal-triggered shutdown never produces exit code
0: the teardown ends with `process.terminate()` on the bridge's own process
after the original handlers have been restored, so under the default SIGTERM
disposition (and on Windows) the process is killed by the terminate request,
under an ignoring disposition the final `wait()` on the still-alive self
never returns, and under any other original disposition the normal
end-of-script exit is still never reached. -/
theorem C4_no_zero_exit (w : Bool) (d : Sig → Handler) (s : Sig) (k : Nat)
    (h : monitored w s = true) :
    (run w d (RunPlan.sigDuringListen s k none)).outcome ≠ Outcome.exited 0
    ∧ (w = false → d Sig.sigterm = Handler.dfl →
        (run w d (RunPlan.sigDuringListen s k none)).outcome
          = Outcome.killedBySignal Sig.sigterm) := by
  have hout : (run w d (RunPlan.sigDuringListen s k none)).outcome
      = (cleanTail w d).2 := rfl
  rw [hout]
  cases w with
  | true => exact ⟨by simp [cleanTail], fun hf => by cases hf⟩
  | false =>
    cases hd : d Sig.sigterm with
    | exitGracefully =>
      refine ⟨by simp [cleanTail, hd], fun _ hdd => ?_⟩
      cases hdd
    | dfl => exact ⟨by simp [cleanTail, hd], fun _ _ => by simp [cleanTail, hd]⟩
    | ign =>
      refine ⟨by simp [cleanTail, hd], fun _ hdd => ?_⟩
      cases hdd
    | custom id =>
      refine ⟨by simp [cleanTail, hd], fun _ hdd => ?_⟩
      cases hdd

/-- Claim C4 witness: the amended no-exit-0 theorem instantiated at a
concrete clean-shutdown run with default dispositions. -/
theorem C4_no_zero_exit_witness :
    monitored false Sig.sigint = true
    ∧ ((run false allDfl (RunPlan.sigDuringListen Sig.sigint 0 none)).outcome
        ≠ Outcome.exited 0
      ∧ (false = false → allDfl Sig.sigterm = Handler.dfl →
          (run false allDfl (RunPlan.sigDuringListen Sig.sigint 0 none)).outcome
            = Outcome.killedBySignal Sig.sigterm)) :=
  ⟨by decide, C4_no_zero_exit false allDfl Sig.sigint 0 (by decide)⟩

/-- Claim C5, counterexample: a fatal error other than `TerminateSignal`
raised during the relay loop escapes the `except TerminateSignal` clause
uncaught — `client.stop()` is never called and no self-terminate happens, so
the ordered teardown is skipped, contradicting the claim that every fatal
error during `running` leads to draining and teardown. -/
theorem C5_counterexample :
    (run false allDfl (RunPlan.otherDuringListen 0)).outcome
        = Outcome.uncaught Exc.otherError
    ∧ Event.clientStop ∉ (run false allDfl (RunPlan.otherDuringListen 0)).trace
    ∧ Event.procTerminate ProcTarget.selfProc ∉
        (run false allDfl (RunPlan.otherDuringListen 0)).trace := by
  decide

/-- Claim C5, amended: only the `TerminateSignal` exception raised by the
signal handler moves the bridge from the relay loop into the ordered
teardown (where `client.stop()` runs); any other exception raised by
`client.listen()` propagates out of `__main__` uncaught, with
`client.stop()`, handler restoration and the final terminate all skipped. -/
theorem C5_only_terminate_signal_caught (w : Bool) (d : Sig → Handler)
    (k : Nat) (s : Sig) (h : monitored w s = true) :
    (run w d (RunPlan.otherDuringListen k)).outcome = Outcome.uncaught Exc.otherError
    ∧ Event.clientStop ∉ (run w d (RunPlan.otherDuringListen k)).trace
    ∧ Event.procTerminate ProcTarget.selfProc ∉
        (run w d (RunPlan.otherDuringListen k)).trace
    ∧ Event.clientStop ∈ (run w d (RunPlan.sigDuringListen s k none)).trace := by
  refine ⟨rfl, ?_, ?_, ?_⟩
  · cases w <;> simp [run, startedPrefix, installEvents, processVar,
      List.mem_append, List.mem_replicate]
  · cases w <;> simp [run, startedPrefix, installEvents, processVar,
      List.mem_append, List.mem_replicate]
  · simp [run, List.mem_append]

/-- Claim C5 witness: the amended theorem instantiated at a concrete
crashing run and a concrete clean run. -/
theorem C5_only_terminate_signal_caught_witness :
    monitored false Sig.sigterm = true
    ∧ ((run false allDfl (RunPlan.otherDuringListen 1)).outcome
          = Outcome.uncaught Exc.otherError
      ∧ Event.clientStop ∉ (run false allDfl (RunPlan.otherDuringListen 1)).trace
      ∧ Event.procTerminate ProcTarget.selfProc ∉
          (run false allDfl (RunPlan.otherDuringListen 1)).trace
      ∧ Event.clientStop ∈
          (run false allDfl (RunPlan.sigDuringListen Sig.sigterm 1 none)).trace) :=
  ⟨by decide, C5_only_terminate_signal_caught false allDfl 1 Sig.sigterm (by decide)⟩

/-- Claim C6, counterexample: delivering a second SIGTERM right after the
first one initiated shutdown (after the `except` block, before
`client.stop()`) changes the run: the second `TerminateSignal` is raised
outside the protected region, `client.stop()` never runs, and the whole run
differs from the single-signal run — the second signal is not free of
additional effects. -/
theorem C6_counterexample :
    (run false allDfl (RunPlan.sigDuringListen Sig.sigterm 0 (some Sig.sigterm))).outcome
        = Outcome.uncaught Exc.terminateSignal
    ∧ Event.clientStop ∉
        (run false allDfl (RunPlan.sigDuringListen Sig.sigterm 0 (some Sig.sigterm))).trace
    ∧ Event.clientStop ∈
        (run false allDfl (RunPlan.sigDuringListen Sig.sigterm 0 none)).trace
    ∧ run false allDfl (RunPlan.sigDuringListen Sig.sigterm 0 (some Sig.sigterm))
        ≠ run false allDfl (RunPlan.sigDuringListen Sig.sigterm 0 none) := by
  decide

/-- Claim C6, amended: a second monitored signal delivered after the first
has initiated shutdown but before `client.stop()` aborts the remaining
teardown: its `TerminateSignal` is raised outside the `try`, the run ends as
an uncaught exception, and `client.stop()`, handler restoration and the
self-terminate are all skipped — the second signal therefore does produce
additional effects beyond the first. -/
theorem C6_second_signal_aborts_teardown (w : Bool) (d : Sig → Handler)
    (s s2 : Sig) (k : Nat)
    (h : monitored w s = true) (h2 : monitored w s2 = true) :
    (run w d (RunPlan.sigDuringListen s k (some s2))).outcome
        = Outcome.uncaught Exc.terminateSignal
    ∧ Event.clientStop ∉ (run w d (RunPlan.sigDuringListen s k (some s2))).trace
    ∧ Event.procTerminate ProcTarget.selfProc ∉
        (run w d (RunPlan.sigDuringListen s k (some s2))).trace
    ∧ Event.procWait ProcTarget.selfProc ∉
        (run w d (RunPlan.sigDuringListen s k (some s2))).trace
    ∧ (run w d (RunPlan.sigDuringListen s k (some s2))).trace.filter isSetsig
        = installSetsigs w := by
  refine ⟨rfl, ?_, ?_, ?_, ?_⟩
  · cases w <;> simp [run, startedPrefix, installEvents, exit_gracefully,
      processVar, List.mem_append, List.mem_replicate]
  · cases w <;> simp [run, startedPrefix, installEvents, exit_gracefully,
      processVar, List.mem_append, List.mem_replicate]
  · cases w <;> simp [run, startedPrefix, installEvents, exit_gracefully,
      processVar, List.mem_append, List.mem_replicate]
  · show (startedPrefix w ++ List.replicate k Event.clientListen
      ++ (exit_gracefully (sigValue s)).events
      ++ (exit_gracefully (sigValue s2)).events).filter isSetsig = installSetsigs w
    simp only [List.filter_append, filter_setsig_startedPrefix,
      filter_setsig_replicate]
    simp [exit_gracefully, isSetsig]

/-- Claim C6 witness: the amended second-signal theorem instantiated at a
concrete run with two SIGINT deliveries. -/
theorem C6_second_signal_aborts_teardown_witness :
    monitored false Sig.sigint = true
    ∧ monitored false Sig.sigint = true
    ∧ ((run false allDfl (RunPlan.sigDuringListen Sig.sigint 2 (some Sig.sigint))).outcome
          = Outcome.uncaught Exc.terminateSignal
      ∧ Event.clientStop ∉
          (run false allDfl (RunPlan.sigDuringListen Sig.sigint 2 (some Sig.sigint))).trace
      ∧ Event.procTerminate ProcTarget.selfProc ∉
          (run false allDfl (RunPlan.sigDuringListen Sig.sigint 2 (some Sig.sigint))).trace
      ∧ Event.procWait ProcTarget.selfProc ∉
          (run false allDfl (RunPlan.sigDuringListen Sig.sigint 2 (some Sig.sigint))).trace
      ∧ (run false allDfl (RunPlan.sigDuringListen Sig.sigint 2 (some Sig.sigint))).trace.filter isSetsig
          = installSetsigs false) :=
  ⟨by decide, by decide,
   C6_second_signal_aborts_teardown false allDfl Sig.sigint Sig.sigint 2
     (by decide) (by decide)⟩

theorem parseKnownFrom_unknown (a : Args) (extra : List String)
    (hx : ∀ t ∈ extra, knownValueOption t = false ∧ knownFlagOption t = false) :
    parseKnownFrom a extra = some (a, extra) := by
  induction extra with
  | nil => rfl
  | cons t rest ih =>
    have h1 := hx t (by simp)
    have h2 : ∀ x ∈ rest, knownValueOption x = false ∧ knownFlagOption x = false :=
      fun x hx2 => hx x (by simp [hx2])
    rw [parseKnownFrom.eq_def]
    simp [h1.1, h1.2, ih h2]

/-- Claim C8: with no command-line tokens the parsed namespace carries the
declared defaults — zmq port 7000, server host 127.0.0.1, server port 2087,
workspace the current working directory, server command `pyls`, no external
server; and unrecognized trailing tokens (here following a recognized
`--zmq-port value` pair, or standing alone) are kept in order as the extras
list, which `__main__` passes verbatim as `server_args` to the spawned
server process. -/
theorem C8_defaults_and_passthrough (cwd v : String) (extra : List String)
    (hv : looksLikeOption v = false)
    (hx : ∀ t ∈ extra, knownValueOption t = false ∧ knownFlagOption t = false) :
    parse_known_args cwd [] = some (defaultArgs cwd, [])
    ∧ (defaultArgs cwd).zmq_port = Val.i 7000
    ∧ (defaultArgs cwd).server_host = Val.s "127.0.0.1"
    ∧ (defaultArgs cwd).server_port = Val.i 2087
    ∧ (defaultArgs cwd).folder = Val.s cwd
    ∧ (defaultArgs cwd).server = Val.s "pyls"
    ∧ (defaultArgs cwd).external_server = false
    ∧ parse_known_args cwd extra = some (defaultArgs cwd, extra)
    ∧ parse_known_args cwd ("--zmq-port" :: v :: extra)
        = some (setOption (defaultArgs cwd) "--zmq-port" v, extra)
    ∧ (mkClient (setOption (defaultArgs cwd) "--zmq-port" v, extra)).server_args
        = extra := by
  have hkv : knownValueOption "--zmq-port" = true := by decide
  refine ⟨rfl, rfl, rfl, rfl, rfl, rfl, rfl, parseKnownFrom_unknown _ _ hx, ?_, rfl⟩
  show parseKnownFrom (defaultArgs cwd) ("--zmq-port" :: v :: extra)
      = some (setOption (defaultArgs cwd) "--zmq-port" v, extra)
  rw [parseKnownFrom.eq_def]
  simp [hkv, hv, parseKnownFrom_unknown _ _ hx]

/-- Claim C8 witness: defaults and verbatim passthrough at a concrete
invocation `--zmq-port 8000 -m foo`. -/
theorem C8_defaults_and_passthrough_witness :
    (looksLikeOption "8000" = false)
    ∧ (∀ t ∈ ["-m", "foo"], knownValueOption t = false ∧ knownFlagOption t = false)
    ∧ (parse_known_args "/ws" [] = some (defaultArgs "/ws", [])
      ∧ (defaultArgs "/ws").zmq_port = Val.i 7000
      ∧ (defaultArgs "/ws").server_host = Val.s "127.0.0.1"
      ∧ (defaultArgs "/ws").server_port = Val.i 2087
      ∧ (defaultArgs "/ws").folder = Val.s "/ws"
      ∧ (defaultArgs "/ws").server = Val.s "pyls"
      ∧ (defaultArgs "/ws").external_server = false
      ∧ parse_known_args "/ws" ["-m", "foo"] = some (defaultArgs "/ws", ["-m", "foo"])
      ∧ parse_known_args "/ws" ("--zmq-port" :: "8000" :: ["-m", "foo"])
          = some (setOption (defaultArgs "/ws") "--zmq-port" "8000", ["-m", "foo"])
      ∧ (mkClient (setOption (defaultArgs "/ws") "--zmq-port" "8000",
            ["-m", "foo"])).server_args = ["-m", "foo"]) :=
  ⟨by decide, by decide,
   C8_defaults_and_passthrough "/ws" "8000" ["-m", "foo"] (by decide) (by decide)⟩

/-- Claim C9: the `terminate()` and `wait()` calls at the end of the
shutdown sequence are applied to the bridge's own process — the driver never
terminates or waits on the spawned child directly — and the terminate
request is issued only after the restore of the original handlers, so the
driver signals itself under the restored dispositions. -/
theorem C9_terminate_targets_self (w : Bool) (d : Sig → Handler) (s : Sig)
    (k : Nat) (h : monitored w s = true) :
    Event.procTerminate ProcTarget.childProc ∉
        (run w d (RunPlan.sigDuringListen s k none)).trace
    ∧ Event.procWait ProcTarget.childProc ∉
        (run w d (RunPlan.sigDuringListen s k none)).trace
    ∧ ∃ pre, (run w d (RunPlan.sigDuringListen s k none)).trace
          = pre ++ restoreEvents w d ++ (cleanTail w d).1
        ∧ ((cleanTail w d).1).head? = some (Event.procTerminate ProcTarget.selfProc) := by
  refine ⟨?_, ?_, ?_⟩
  · intro hm
    simp [run, startedPrefix, installEvents, exit_gracefully, processVar,
      restoreEvents, List.mem_append, List.mem_replicate] at hm
    rcases cleanTail_mem w d _ hm with h1 | h1 | h1 <;> simp at h1
  · intro hm
    simp [run, startedPrefix, installEvents, exit_gracefully, processVar,
      restoreEvents, List.mem_append, List.mem_replicate] at hm
    rcases cleanTail_mem w d _ hm with h1 | h1 | h1 <;> simp at h1
  · refine ⟨startedPrefix w ++ List.replicate k Event.clientListen
      ++ (exit_gracefully (sigValue s)).events ++ [Event.clientStop],
      ?_, cleanTail_head w d⟩
    simp [run, List.append_assoc]

/-- Claim C9 witness: the self-targeting theorem instantiated at a concrete
clean-shutdown run. -/
theorem C9_terminate_targets_self_witness :
    monitored false Sig.sigterm = true
    ∧ (Event.procTerminate ProcTarget.childProc ∉
          (run false allDfl (RunPlan.sigDuringListen Sig.sigterm 0 none)).trace
      ∧ Event.procWait ProcTarget.childProc ∉
          (run false allDfl (RunPlan.sigDuringListen Sig.sigterm 0 none)).trace
      ∧ ∃ pre, (run false allDfl (RunPlan.sigDuringListen Sig.sigterm 0 none)).trace
            = pre ++ restoreEvents false allDfl ++ (cleanTail false allDfl).1
          ∧ ((cleanTail false allDfl).1).head?
              = some (Event.procTerminate ProcTarget.selfProc)) :=
  ⟨by decide, C9_terminate_targets_self false allDfl Sig.sigterm 0 (by decide)⟩

/-- Claim C10: a monitored signal delivered after the `SignalManager` is
installed but before the protected loop is entered — during
`LanguageServerClient(...)` construction or during `client.start()` — makes
the `TerminateSignal` exception escape `__main__` uncaught: `client.stop()`
is never called, and the only `signal.signal` calls in the whole run are the
installs, so the original handlers are never restored. -/
theorem C10_early_signal_uncaught (w : Bool) (d : Sig → Handler) (s : Sig)
    (h : monitored w s = true) :
    ((run w d (RunPlan.sigDuringConstruct s)).outcome
          = Outcome.uncaught Exc.terminateSignal
      ∧ Event.clientStop ∉ (run w d (RunPlan.sigDuringConstruct s)).trace
      ∧ (run w d (RunPlan.sigDuringConstruct s)).trace.filter isSetsig
          = installSetsigs w)
    ∧ ((run w d (RunPlan.sigDuringStart s)).outcome
          = Outcome.uncaught Exc.terminateSignal
      ∧ Event.clientStop ∉ (run w d (RunPlan.sigDuringStart s)).trace
      ∧ (run w d (RunPlan.sigDuringStart s)).trace.filter isSetsig
          = installSetsigs w) := by
  refine ⟨⟨rfl, ?_, ?_⟩, ⟨rfl, ?_, ?_⟩⟩
  · cases w <;> simp [run, installEvents, exit_gracefully, processVar,
      List.mem_append]
  · show ([Event.procHandle processVar] ++ installEvents w
      ++ (exit_gracefully (sigValue s)).events).filter isSetsig = installSetsigs w
    simp only [List.filter_append, filter_setsig_installEvents]
    simp [exit_gracefully, isSetsig, processVar]
  · cases w <;> simp [run, installEvents, exit_gracefully, processVar,
      List.mem_append]
  · show ([Event.procHandle processVar] ++ installEvents w
      ++ [Event.clientConstruct] ++ (exit_gracefully (sigValue s)).events).filter isSetsig
      = installSetsigs w
    simp only [List.filter_append, filter_setsig_installEvents]
    simp [exit_gracefully, isSetsig, processVar]

/-- Claim C10 witness: the early-signal theorem instantiated at SIGINT on
POSIX. -/
theorem C10_early_signal_uncaught_witness :
    monitored false Sig.sigint = true
    ∧ (((run false allDfl (RunPlan.sigDuringConstruct Sig.sigint)).outcome
          = Outcome.uncaught Exc.terminateSignal
      ∧ Event.clientStop ∉ (run false allDfl (RunPlan.sigDuringConstruct Sig.sigint)).trace
      ∧ (run false allDfl (RunPlan.sigDuringConstruct Sig.sigint)).trace.filter isSetsig
          = installSetsigs false)
    ∧ ((run false allDfl (RunPlan.sigDuringStart Sig.sigint)).outcome
          = Outcome.uncaught Exc.terminateSignal
      ∧ Event.clientStop ∉ (run false allDfl (RunPlan.sigDuringStart Sig.sigint)).trace
      ∧ (run false allDfl (RunPlan.sigDuringStart Sig.sigint)).trace.filter isSetsig
          = installSetsigs false)) :=
  ⟨by decide, C10_early_signal_uncaught false allDfl Sig.sigint (by decide)⟩

end Spyder
